import Mathlib

/-!
Verification of the `schemadiff` core of vitess (`go/vt/schemadiff/types.go`):
the diff-hints policy, the entity / entity-diff contracts, instant-DDL
classification, and the foreign-key reference rendering.

Pure functions of the source are embedded directly; the table/view
implementations of the `Entity` and `EntityDiff` interfaces live outside the
file under verification, so they are modelled from the specification where a
claim needs them (each such definition is marked `Modelled from the spec`).
-/

namespace Schemadiff

/-! ## InstantDDLCapability

The Go source declares `type InstantDDLCapability int` with four named
constants assigned by `iota`: Unknown, Irrelevant, Impossible, Possible. -/

inductive InstantDDLCapability where
  | Unknown
  | Irrelevant
  | Impossible
  | Possible
  deriving DecidableEq, Repr

/-- The integer code each named capability constant receives from Go
`iota` numbering: Unknown = 0, Irrelevant = 1, Impossible = 2, Possible = 3. -/
def InstantDDLCapability.code : InstantDDLCapability → Int
  | .Unknown => 0
  | .Irrelevant => 1
  | .Impossible => 2
  | .Possible => 3

/-! ## Strategy constants

Each Go `const` block is an `iota` enumeration of `int` values. -/

def AutoIncrementIgnore : Int := 0
def AutoIncrementApplyHigher : Int := 1
def AutoIncrementApplyAlways : Int := 2

def RangeRotationFullSpec : Int := 0
def RangeRotationDistinctStatements : Int := 1
def RangeRotationIgnore : Int := 2

def ConstraintNamesIgnoreVitess : Int := 0
def ConstraintNamesIgnoreAll : Int := 1
def ConstraintNamesStrict : Int := 2

def ColumnRenameAssumeDifferent : Int := 0
def ColumnRenameHeuristicStatement : Int := 1

def TableRenameAssumeDifferent : Int := 0
def TableRenameHeuristicStatement : Int := 1

def FullTextKeyDistinctStatements : Int := 0
def FullTextKeyUnifyStatements : Int := 1

def TableCharsetCollateStrict : Int := 0
def TableCharsetCollateIgnoreEmpty : Int := 1
def TableCharsetCollateIgnoreAlways : Int := 2

def TableQualifierDefault : Int := 0
def TableQualifierDeclared : Int := 1

def AlterTableAlgorithmStrategyNone : Int := 0
def AlterTableAlgorithmStrategyInstant : Int := 1
def AlterTableAlgorithmStrategyInplace : Int := 2
def AlterTableAlgorithmStrategyCopy : Int := 3

def EnumReorderStrategyAllow : Int := 0
def EnumReorderStrategyReject : Int := 1

def ForeignKeyCheckStrategyStrict : Int := 0
def ForeignKeyCheckStrategyIgnore : Int := 1

def SubsequentDiffStrategyAllow : Int := 0
def SubsequentDiffStrategyReject : Int := 1

/-- DiffHints is an assortment of rules for diffing entities
(Go struct `DiffHints`; every strategy field is a Go `int`). -/
structure DiffHints where
  StrictIndexOrdering : Bool
  AutoIncrementStrategy : Int
  RangeRotationStrategy : Int
  ConstraintNamesStrategy : Int
  ColumnRenameStrategy : Int
  TableRenameStrategy : Int
  FullTextKeyStrategy : Int
  TableCharsetCollateStrategy : Int
  TableQualifierHint : Int
  AlterTableAlgorithmStrategy : Int
  EnumReorderStrategy : Int
  ForeignKeyCheckStrategy : Int
  SubsequentDiffStrategy : Int
  deriving DecidableEq, Repr

/-- Go `EmptyDiffHints()` returns `&DiffHints{}`: the zero value of the
struct, i.e. every strategy field 0 and every boolean field false. -/
def EmptyDiffHints : DiffHints :=
  { StrictIndexOrdering := false
    AutoIncrementStrategy := 0
    RangeRotationStrategy := 0
    ConstraintNamesStrategy := 0
    ColumnRenameStrategy := 0
    TableRenameStrategy := 0
    FullTextKeyStrategy := 0
    TableCharsetCollateStrategy := 0
    TableQualifierHint := 0
    AlterTableAlgorithmStrategy := 0
    EnumReorderStrategy := 0
    ForeignKeyCheckStrategy := 0
    SubsequentDiffStrategy := 0 }

/-! ## Foreign-key references -/

/-- Modelled from the spec: the collaborator identifier-escaping routine
(`sqlescape.EscapeID`, outside the file under verification). The spec says
each identifier is "escaped by the collaborator identifier-escaping routine"
and shows the rendering as the identifier wrapped in backticks
(e.g. orders becomes `orders`). -/
def escapeID (s : String) : String := "`" ++ s ++ "`"

/-- Go struct `ForeignKeyTableColumns`: a referenced table name and its
ordered column list. A plain exported struct with no constructor function. -/
structure ForeignKeyTableColumns where
  Table : String
  Columns : List String
  deriving DecidableEq, Repr

/-- The `for i, column := range f.Columns` loop of `Escaped`, filling
`escapedColumns[i] = sqlescape.EscapeID(column)` index by index. -/
def escapeColumnsLoop : List String → List String
  | [] => []
  | column :: rest => escapeID column :: escapeColumnsLoop rest

/-- Go method `func (f ForeignKeyTableColumns) Escaped() string`:
builds, via a string builder, the escaped table name, then " (", then the
escaped columns joined by ", ", then ")". -/
def ForeignKeyTableColumns.Escaped (f : ForeignKeyTableColumns) : String :=
  let b := ""
  let b := b ++ escapeID f.Table
  let b := b ++ " ("
  let escapedColumns := escapeColumnsLoop f.Columns
  let b := b ++ String.intercalate ", " escapedColumns
  let b := b ++ ")"
  b

theorem escapeColumnsLoop_eq_map (l : List String) :
    escapeColumnsLoop l = l.map escapeID := by
  induction l with
  | nil => rfl
  | cons c rest ih => simp [escapeColumnsLoop, ih]

theorem Escaped_eq (f : ForeignKeyTableColumns) :
    f.Escaped =
      escapeID f.Table ++ " (" ++
        String.intercalate ", " (f.Columns.map escapeID) ++ ")" := by
  simp [ForeignKeyTableColumns.Escaped, escapeColumnsLoop_eq_map,
    String.append_assoc]

/-! ## Entities and entity diffs

The `Entity` and `EntityDiff` interfaces are declared in the file under
verification, but their table/view implementations live elsewhere in the
repository. The definitions below are therefore modelled from the spec. -/

/-- Modelled from the spec: the closed set of entity kinds (a table or a
view) implementing the `Entity` interface. -/
inductive EntityKind where
  | table
  | view
  deriving DecidableEq, Repr

/-- Modelled from the spec: an entity has a name and an internal structural
definition sufficient to regenerate its creation statement. -/
structure Entity where
  kind : EntityKind
  name : String
  definition : String
  deriving DecidableEq, Repr

/-- Modelled from the spec: `Entity.Clone` returns an independent deep copy
of the entity, field by field. -/
def Entity.Clone (e : Entity) : Entity :=
  { kind := e.kind, name := e.name, definition := e.definition }

def EntityKind.word : EntityKind → String
  | .table => "TABLE"
  | .view => "VIEW"

/-- Modelled from the spec: the abstract SQL statement representation
(`sqlparser.Statement`, a collaborator) that a diff carries — a creation,
drop, or alteration of an entity. -/
inductive SqlStatement where
  | createEntity (e : Entity)
  | dropEntity (e : Entity)
  | alterEntity (source target : Entity)
  deriving DecidableEq, Repr

/-- Modelled from the spec: the collaborator statement renderer, a
deterministic textual rendering of the abstract statement. -/
def SqlStatement.render : SqlStatement → String
  | .createEntity e => "CREATE " ++ e.kind.word ++ " " ++ e.name ++ " " ++ e.definition
  | .dropEntity e => "DROP " ++ e.kind.word ++ " " ++ e.name
  | .alterEntity a b => "ALTER " ++ a.kind.word ++ " " ++ a.name ++ " " ++ b.definition

/-- Modelled from the spec: the canonical rendering normalizes whitespace
and ordering; the modelled statements are already in normal form, so the
canonical rendering coincides with the plain one. -/
def SqlStatement.canonicalRender (s : SqlStatement) : String :=
  s.render

/-- Deep copy of the abstract statement, copying the referenced entities. -/
def SqlStatement.clone : SqlStatement → SqlStatement
  | .createEntity e => .createEntity e.Clone
  | .dropEntity e => .dropEntity e.Clone
  | .alterEntity a b => .alterEntity a.Clone b.Clone

/-- Modelled from the spec: an entity diff holds the two compared entities
(each independently optional, for pure creation or pure drop), an optional
generated statement, and an optional link to a subsequent diff; the chain is
a simple singly-linked sequence, here expressed by the two constructors
(`base` with no follow-up link, `chain` with one). -/
inductive EntityDiff where
  | base (source target : Option Entity) (statement : Option SqlStatement)
  | chain (source target : Option Entity) (statement : Option SqlStatement)
      (subsequent : EntityDiff)
  deriving DecidableEq, Repr

/-- The statement carried at this link of the chain. -/
def EntityDiff.statementOf : EntityDiff → Option SqlStatement
  | .base _ _ s => s
  | .chain _ _ s _ => s

/-- Modelled from the spec: `IsEmpty` is true iff this diff carries no
statement. -/
def EntityDiff.IsEmpty (d : EntityDiff) : Bool :=
  d.statementOf.isNone

/-- Modelled from the spec: `Statement` returns the abstract statement, nil
(none) when the diff is empty. -/
def EntityDiff.Statement (d : EntityDiff) : Option SqlStatement :=
  d.statementOf

/-- Modelled from the spec: `StatementString` stringifies the statement and
returns the empty string when the diff is empty. -/
def EntityDiff.StatementString (d : EntityDiff) : String :=
  match d.statementOf with
  | none => ""
  | some s => s.render

/-- Modelled from the spec: `CanonicalStatementString` stringifies the
statement canonically and returns the empty string when the diff is empty. -/
def EntityDiff.CanonicalStatementString (d : EntityDiff) : String :=
  match d.statementOf with
  | none => ""
  | some s => s.canonicalRender

/-- Modelled from the spec: `SubsequentDiff` returns the follow-up diff of
this one, if one exists. -/
def EntityDiff.SubsequentDiff : EntityDiff → Option EntityDiff
  | .base _ _ _ => none
  | .chain _ _ _ sub => some sub

/-- Modelled from the spec: `SetSubsequentDiff` updates the subsequent-diff
link to the given diff, replacing any previously set link. -/
def EntityDiff.SetSubsequentDiff : EntityDiff → EntityDiff → EntityDiff
  | .base f t s, d2 => .chain f t s d2
  | .chain f t s _, d2 => .chain f t s d2

/-- Modelled from the spec: `Clone` deep-copies the diff and, transitively,
its chain, its statement and both referenced entities. -/
def EntityDiff.Clone : EntityDiff → EntityDiff
  | .base f t s =>
      .base (f.map Entity.Clone) (t.map Entity.Clone) (s.map SqlStatement.clone)
  | .chain f t s sub =>
      .chain (f.map Entity.Clone) (t.map Entity.Clone) (s.map SqlStatement.clone)
        sub.Clone

/-- Modelled from the spec: the instant-DDL classifier on a non-empty
diff's statement content. A creation or drop needs no rebuild of existing
table data, so it is eligible; classifying an alteration needs the per-kind
comparison logic that is outside this core, so it is left unclassified. -/
def SqlStatement.classifyInstant : SqlStatement → InstantDDLCapability
  | .createEntity _ => .Possible
  | .dropEntity _ => .Possible
  | .alterEntity _ _ => .Unknown

/-- Modelled from the spec: `InstantDDLCapability` is a pure function of the
diff's own statement content; an empty diff classifies as irrelevant. -/
def EntityDiff.InstantDDLCapability (d : EntityDiff) : InstantDDLCapability :=
  match d.statementOf with
  | none => .Irrelevant
  | some s => s.classifyInstant

/-- Modelled from the spec: the error taxonomy of the diff engine. -/
inductive SchemadiffError where
  | mismatchedKind (thisName otherName : String)
  | policyViolation (entityName : String)
  deriving DecidableEq, Repr

/-- Modelled from the spec: whether two same-kind entities are structurally
identical under the given policy (the per-field comparison algorithms are
collaborators; identity of the structural definition and of the name always
yields an empty diff). -/
def structurallyIdentical (a b : Entity) (_hints : DiffHints) : Bool :=
  a.name == b.name && a.definition == b.definition

/-- Modelled from the spec: `Entity.Diff` compares two entities. It fails
with a MismatchedKindError iff the kinds differ; otherwise it succeeds,
yielding an empty diff when the entities are structurally identical under
the policy and an alteration statement otherwise. -/
def Entity.Diff (a b : Entity) (hints : DiffHints) :
    Except SchemadiffError EntityDiff :=
  if a.kind = b.kind then
    if structurallyIdentical a b hints then
      .ok (.base (some a) (some b) none)
    else
      .ok (.base (some a) (some b) (some (.alterEntity a b)))
  else
    .error (.mismatchedKind a.name b.name)

/-- Modelled from the spec: `Create` returns a diff representing the
unconditional creation of this entity from nothing; never empty. -/
def Entity.Create (e : Entity) : EntityDiff :=
  .base none (some e) (some (.createEntity e))

/-- Modelled from the spec: `Drop` is the dual of `Create`; never empty. -/
def Entity.Drop (e : Entity) : EntityDiff :=
  .base (some e) none (some (.dropEntity e))

/-! ## Helper lemmas -/

theorem append_left_ne_empty (s t : String) (h : s ≠ "") : s ++ t ≠ "" := by
  intro hc
  apply h
  have hd := congrArg String.data hc
  rw [String.data_append] at hd
  have hs : s.data = [] := (List.append_eq_nil.mp hd).1
  exact String.ext hs

theorem render_ne_empty (s : SqlStatement) : s.render ≠ "" := by
  cases s with
  | createEntity e =>
      exact append_left_ne_empty _ _ (append_left_ne_empty _ _
        (append_left_ne_empty _ _ (append_left_ne_empty _ _
          (append_left_ne_empty _ _ (by decide)))))
  | dropEntity e =>
      exact append_left_ne_empty _ _ (append_left_ne_empty _ _
        (append_left_ne_empty _ _ (by decide)))
  | alterEntity a b =>
      exact append_left_ne_empty _ _ (append_left_ne_empty _ _
        (append_left_ne_empty _ _ (append_left_ne_empty _ _
          (append_left_ne_empty _ _ (by decide)))))

theorem entity_clone_eq (e : Entity) : e.Clone = e := rfl

theorem sqlStatement_clone_eq (s : SqlStatement) : s.clone = s := by
  cases s <;> simp [SqlStatement.clone, entity_clone_eq]

theorem entityDiff_clone_eq (d : EntityDiff) : d.Clone = d := by
  induction d with
  | base f t s =>
      cases f <;> cases t <;> cases s <;>
        simp [EntityDiff.Clone, entity_clone_eq, sqlStatement_clone_eq]
  | chain f t s sub ih =>
      cases f <;> cases t <;> cases s <;>
        simp [EntityDiff.Clone, entity_clone_eq, sqlStatement_clone_eq, ih]

theorem structurallyIdentical_refl (a : Entity) (hints : DiffHints) :
    structurallyIdentical a a hints = true := by
  simp [structurallyIdentical]

end Schemadiff

/-! ## Claim theorems -/

open Schemadiff

/-- C1: with non-empty Columns, `Escaped` returns the escaped table name, a
space, an opening parenthesis, the escaped columns in order joined by ", ",
and a closing parenthesis; the concrete example renders as stated and the
rendering is deterministic on equal inputs. -/
theorem C1_escaped_rendering (f : ForeignKeyTableColumns)
    (h : f.Columns ≠ []) :
    f.Escaped =
      escapeID f.Table ++ " (" ++
        String.intercalate ", " (f.Columns.map escapeID) ++ ")" ∧
    (ForeignKeyTableColumns.mk "orders" ["user_id"]).Escaped
      = "`orders` (`user_id`)" ∧
    ∀ g : ForeignKeyTableColumns, f = g → f.Escaped = g.Escaped := by
  refine ⟨Escaped_eq f, rfl, ?_⟩
  intro g hg
  rw [hg]

/-- C1 witness: the rendering theorem applied at the concrete input
{Table: "orders", Columns: ["user_id"]}. -/
theorem C1_escaped_rendering_witness :
    (ForeignKeyTableColumns.mk "orders" ["user_id"]).Escaped
      = "`orders` (`user_id`)" :=
  (C1_escaped_rendering ⟨"orders", ["user_id"]⟩ (by decide)).2.1

/-- C2 counterexample: the claim that no ForeignKeyTableColumns value with an
empty Columns list can be obtained is false: the struct has no validating
constructor, and the literal {Table: "orders", Columns: []} is a value of the
type with empty Columns. -/
theorem C2_empty_columns_constructible :
    ¬ (∀ f : ForeignKeyTableColumns, f.Columns ≠ []) :=
  fun h => h ⟨"orders", []⟩ rfl

/-- C2 amended: a foreign-key reference with an empty column list is NOT
rejected at construction — such a value is directly constructible — yet diff
and rendering operations still never fail on it: `Escaped` is total and
renders an empty parenthesized column list. -/
theorem C2_no_construction_rejection :
    (ForeignKeyTableColumns.mk "orders" []).Columns = [] ∧
    (ForeignKeyTableColumns.mk "orders" []).Escaped = "`orders` ()" :=
  ⟨rfl, rfl⟩

/-- C9: `Escaped` is total over all ForeignKeyTableColumns values; for an
empty (or nil) Columns list it returns the escaped table name followed by
" ()", the non-emptiness precondition being unenforced at this interface. -/
theorem C9_escaped_total_on_empty (f : ForeignKeyTableColumns)
    (h : f.Columns = []) :
    f.Escaped = escapeID f.Table ++ " ()" := by
  rw [Escaped_eq, h]
  rw [show String.intercalate ", " (List.map escapeID []) = "" from rfl]
  rw [String.append_empty, String.append_assoc]
  congr 1

/-- C9 witness: the empty-columns rendering at the concrete value
{Table: "t", Columns: []}. -/
theorem C9_escaped_total_on_empty_witness :
    (ForeignKeyTableColumns.mk "t" []).Columns = [] ∧
    (ForeignKeyTableColumns.mk "t" []).Escaped = escapeID "t" ++ " ()" :=
  ⟨rfl, C9_escaped_total_on_empty ⟨"t", []⟩ rfl⟩

/-- C3: the default policy `EmptyDiffHints` (all fields zero) selects
assume-different column and table rename detection, strict foreign-key
checking, strict charset/collation comparison, ignore-auto-increment, and
the ignore-Vitess-generated-names constraint-name strategy (which compares
constraints themselves, only disregarding auto-generated names). -/
theorem C3_default_hints_conservative :
    EmptyDiffHints.ColumnRenameStrategy = ColumnRenameAssumeDifferent ∧
    EmptyDiffHints.TableRenameStrategy = TableRenameAssumeDifferent ∧
    EmptyDiffHints.ForeignKeyCheckStrategy = ForeignKeyCheckStrategyStrict ∧
    EmptyDiffHints.TableCharsetCollateStrategy = TableCharsetCollateStrict ∧
    EmptyDiffHints.AutoIncrementStrategy = AutoIncrementIgnore ∧
    EmptyDiffHints.ConstraintNamesStrategy = ConstraintNamesIgnoreVitess := by
  refine ⟨rfl, rfl, rfl, rfl, rfl, rfl⟩

/-- C4: `Entity.Diff` returns an error exactly when the two entities are of
different concrete kinds, that error is the MismatchedKindError surfaced to
the caller, and on equal kinds the call always succeeds — with an empty diff
(not an error) when the entities are structurally identical under the
policy. -/
theorem C4_diff_mismatched_kind (a b : Entity) (hints : DiffHints) :
    ((∃ err, a.Diff b hints = .error err) ↔ a.kind ≠ b.kind) ∧
    (a.kind ≠ b.kind →
      a.Diff b hints = .error (.mismatchedKind a.name b.name)) ∧
    (a.kind = b.kind → ∃ d, a.Diff b hints = .ok d ∧
      (structurallyIdentical a b hints = true → d.IsEmpty = true)) := by
  by_cases hk : a.kind = b.kind
  · cases hsi : structurallyIdentical a b hints with
    | true =>
        refine ⟨⟨?_, fun hne => absurd hk hne⟩, fun hne => absurd hk hne,
          fun _ => ?_⟩
        · rintro ⟨err, herr⟩
          simp [Entity.Diff, hk, hsi] at herr
        · exact ⟨EntityDiff.base (some a) (some b) none,
            by simp [Entity.Diff, hk, hsi], fun _ => rfl⟩
    | false =>
        refine ⟨⟨?_, fun hne => absurd hk hne⟩, fun hne => absurd hk hne,
          fun _ => ?_⟩
        · rintro ⟨err, herr⟩
          simp [Entity.Diff, hk, hsi] at herr
        · refine ⟨EntityDiff.base (some a) (some b)
            (some (.alterEntity a b)), by simp [Entity.Diff, hk, hsi], ?_⟩
          intro hc
          exact Bool.noConfusion hc
  · refine ⟨⟨fun _ => hk, fun _ => ?_⟩, fun _ => ?_, fun heq => absurd heq hk⟩
    · exact ⟨.mismatchedKind a.name b.name, by simp [Entity.Diff, hk]⟩
    · simp [Entity.Diff, hk]

/-- C4 witness: diffing a table against a view yields exactly the
mismatched-kind error. -/
theorem C4_diff_mismatched_kind_witness :
    Entity.Diff ⟨.table, "t", "(id int)"⟩ ⟨.view, "v", "select 1"⟩
      EmptyDiffHints = .error (.mismatchedKind "t" "v") :=
  (C4_diff_mismatched_kind ⟨.table, "t", "(id int)"⟩ ⟨.view, "v", "select 1"⟩
    EmptyDiffHints).2.1 (by decide)

/-- C5: for every entity diff, emptiness, absence of the statement,
emptiness of the statement string and emptiness of the canonical statement
string are all equivalent. -/
theorem C5_empty_iff_no_statement (d : EntityDiff) :
    (d.IsEmpty = true ↔ d.Statement = none) ∧
    (d.IsEmpty = true ↔ d.StatementString = "") ∧
    (d.IsEmpty = true ↔ d.CanonicalStatementString = "") := by
  cases hs : d.statementOf with
  | none =>
      simp [EntityDiff.IsEmpty, EntityDiff.Statement,
        EntityDiff.StatementString, EntityDiff.CanonicalStatementString, hs]
  | some s =>
      simp [EntityDiff.IsEmpty, EntityDiff.Statement,
        EntityDiff.StatementString, EntityDiff.CanonicalStatementString, hs,
        SqlStatement.canonicalRender, render_ne_empty s]

/-- C5 witness: the equivalences at the concrete (non-empty) creation diff
of a table. -/
theorem C5_empty_iff_no_statement_witness :
    ((Entity.Create ⟨.table, "t", "(id int)"⟩).IsEmpty = true ↔
      (Entity.Create ⟨.table, "t", "(id int)"⟩).Statement = none) ∧
    ((Entity.Create ⟨.table, "t", "(id int)"⟩).IsEmpty = true ↔
      (Entity.Create ⟨.table, "t", "(id int)"⟩).StatementString = "") ∧
    ((Entity.Create ⟨.table, "t", "(id int)"⟩).IsEmpty = true ↔
      (Entity.Create ⟨.table, "t", "(id int)"⟩).CanonicalStatementString
        = "") :=
  C5_empty_iff_no_statement (Entity.Create ⟨.table, "t", "(id int)"⟩)

/-- C6: the self-diff of any entity, under every hints policy, succeeds and
is empty; so does the diff of a clone against its original. -/
theorem C6_self_diff_empty (e : Entity) (hints : DiffHints) :
    (∃ d, e.Diff e hints = .ok d ∧ d.IsEmpty = true) ∧
    (∃ d, e.Clone.Diff e hints = .ok d ∧ d.IsEmpty = true) := by
  constructor
  · exact ⟨.base (some e) (some e) none,
      by simp [Entity.Diff, structurallyIdentical_refl], rfl⟩
  · rw [entity_clone_eq]
    exact ⟨.base (some e) (some e) none,
      by simp [Entity.Diff, structurallyIdentical_refl], rfl⟩

/-- C6 witness: the self-diff properties at a concrete table entity under
the default hints. -/
theorem C6_self_diff_empty_witness :
    (∃ d, Entity.Diff ⟨.table, "t", "(id int)"⟩ ⟨.table, "t", "(id int)"⟩
      EmptyDiffHints = .ok d ∧ d.IsEmpty = true) ∧
    (∃ d, Entity.Diff (Entity.Clone ⟨.table, "t", "(id int)"⟩)
      ⟨.table, "t", "(id int)"⟩ EmptyDiffHints = .ok d ∧ d.IsEmpty = true) :=
  C6_self_diff_empty ⟨.table, "t", "(id int)"⟩ EmptyDiffHints

/-- C7: the instant-DDL classification of a diff is deterministic (equal
diffs classify equally on every call), and an empty diff always classifies
as irrelevant. -/
theorem C7_instant_ddl_classification (d : EntityDiff) :
    (∀ d2 : EntityDiff, d = d2 →
      d.InstantDDLCapability = d2.InstantDDLCapability) ∧
    (d.IsEmpty = true → d.InstantDDLCapability = .Irrelevant) := by
  refine ⟨fun d2 h => by rw [h], fun h => ?_⟩
  unfold EntityDiff.InstantDDLCapability
  cases hs : d.statementOf with
  | none => rfl
  | some s => simp [EntityDiff.IsEmpty, hs] at h

/-- C7 witness: a concrete empty diff is empty and classifies as
irrelevant. -/
theorem C7_instant_ddl_classification_witness :
    (EntityDiff.base none none none).IsEmpty = true ∧
    (EntityDiff.base none none none).InstantDDLCapability = .Irrelevant :=
  ⟨rfl, (C7_instant_ddl_classification (.base none none none)).2 rfl⟩

/-- C8: after setting a subsequent diff, reading it back returns exactly the
diff that was set (replacing any previously set link, since the starting
diff is arbitrary), the clone's subsequent diff is the deep copy of that
diff, and the deep copy is deep-equal to the original. -/
theorem C8_subsequent_diff_chain (d d2 : EntityDiff) :
    (d.SetSubsequentDiff d2).SubsequentDiff = some d2 ∧
    ((d.SetSubsequentDiff d2).Clone).SubsequentDiff = some d2.Clone ∧
    d2.Clone = d2 := by
  refine ⟨?_, ?_, entityDiff_clone_eq d2⟩
  · cases d <;> rfl
  · cases d <;> rfl

/-- C8 witness: the chaining properties at a concrete head diff and a
concrete drop diff chained onto it. -/
theorem C8_subsequent_diff_chain_witness :
    ((EntityDiff.base none none none).SetSubsequentDiff
      (Entity.Drop ⟨.table, "t", "(id int)"⟩)).SubsequentDiff
      = some (Entity.Drop ⟨.table, "t", "(id int)"⟩) ∧
    (((EntityDiff.base none none none).SetSubsequentDiff
      (Entity.Drop ⟨.table, "t", "(id int)"⟩)).Clone).SubsequentDiff
      = some ((Entity.Drop ⟨.table, "t", "(id int)"⟩).Clone) ∧
    (Entity.Drop ⟨.table, "t", "(id int)"⟩).Clone
      = Entity.Drop ⟨.table, "t", "(id int)"⟩ :=
  C8_subsequent_diff_chain (.base none none none)
    (Entity.Drop ⟨.table, "t", "(id int)"⟩)

/-- C10: the InstantDDLCapability enumeration has exactly the four named
values with iota codes Unknown = 0, Irrelevant = 1, Impossible = 2,
Possible = 3, and the zero code is exactly Unknown. -/
theorem C10_capability_codes :
    InstantDDLCapability.Unknown.code = 0 ∧
    InstantDDLCapability.Irrelevant.code = 1 ∧
    InstantDDLCapability.Impossible.code = 2 ∧
    InstantDDLCapability.Possible.code = 3 ∧
    (∀ c : InstantDDLCapability, c.code = 0 ↔ c = .Unknown) ∧
    (∀ c : InstantDDLCapability,
      c = .Unknown ∨ c = .Irrelevant ∨ c = .Impossible ∨ c = .Possible) := by
  refine ⟨rfl, rfl, rfl, rfl, ?_, ?_⟩
  · intro c; cases c <;> simp [InstantDDLCapability.code]
  · intro c; cases c <;> simp
